import Mathlib

/-!
Verification development for the `llm_intercept` proxy
(`src/llm_intercept/app.py`, `src/llm_intercept/proxy.py`,
`src/llm_intercept/models.py`).

The Python code is shallowly embedded:

* JSON values (Python dicts / lists / scalars produced by `request.json()`
  and `response.json()`) become the inductive `JValue`; Python truthiness
  becomes `JValue.truthy`; `json.dumps` (default separators, `ensure_ascii`)
  becomes `jdump`.
* `hashlib.sha256(...).hexdigest()[:16]` becomes an executable SHA-256 over
  UTF-8 byte lists (`sha256HexChars`) truncated by `hash_api_key`.
* Fallible code becomes `Except`/`Option`; an exception that escapes a
  handler is the `HandlerResult.uncaught` outcome; `raise HTTPException`
  is `HandlerResult.httpError`.
* The upstream network is an explicit environment: the unary upstream is a
  `UnaryUpstream` value (`forward_request` embeds
  `OpenAIProxy.forward_request`), and a streaming upstream is a chunk list
  plus an optional mid-stream transport-error message consumed by
  `event_generator_trace` (embedding `event_generator` of
  `handle_streaming_request`).
* The database session is a persisted-record list in the result together
  with a `dbOk` flag saying whether `db.add`/`db.commit` raises.
-/

/-- JSON values as produced by `request.json()` / `response.json()`.
Numbers are modelled as integers (no claim depends on non-integral
numeric values, which are only passed through). Objects keep their fields
as an association list with the first binding of a key the visible one. -/
inductive JValue where
  | null : JValue
  | bool (b : Bool) : JValue
  | num (n : Int) : JValue
  | str (s : String) : JValue
  | arr (xs : List JValue) : JValue
  | obj (fields : List (String × JValue)) : JValue

/-- Python truthiness (`if x:`) of a JSON value: `None`, `False`, `0`,
`""`, `[]`, and the empty dict are falsy. -/
def JValue.truthy : JValue → Bool
  | .null => false
  | .bool b => b
  | .num n => n != 0
  | .str s => s != ""
  | .arr xs => !xs.isEmpty
  | .obj fs => !fs.isEmpty

/-- The opening-brace character emitted by `json.dumps` for objects. -/
def obraceChar : Char := Char.ofNat 123

/-- The closing-brace character emitted by `json.dumps` for objects. -/
def cbraceChar : Char := Char.ofNat 125

/-- Lower-case hexadecimal digit for `n < 16`, as produced by
`hexdigest` and by the `\uXXXX` escapes of `json.dumps`. -/
def hexChar (n : Nat) : Char :=
  if n < 10 then Char.ofNat (48 + n) else Char.ofNat (87 + n)

/-- Escape one character the way `json.dumps` (default `ensure_ascii=True`)
does inside a string literal. -/
def escChar (c : Char) : List Char :=
  if c = '"' then ['\\', '"']
  else if c = '\\' then ['\\', '\\']
  else if c = Char.ofNat 10 then ['\\', 'n']
  else if c = Char.ofNat 9 then ['\\', 't']
  else if c = Char.ofNat 13 then ['\\', 'r']
  else if c = Char.ofNat 8 then ['\\', 'b']
  else if c = Char.ofNat 12 then ['\\', 'f']
  else if c.toNat < 32 then
    ['\\', 'u', '0', '0', hexChar (c.toNat / 16), hexChar (c.toNat % 16)]
  else if c.toNat < 128 then [c]
  else if c.toNat < 65536 then
    ['\\', 'u', hexChar (c.toNat / 4096 % 16), hexChar (c.toNat / 256 % 16),
     hexChar (c.toNat / 16 % 16), hexChar (c.toNat % 16)]
  else
    -- astral code points become a UTF-16 surrogate pair
    let v := c.toNat - 65536
    let hi := 55296 + v / 1024
    let lo := 56320 + v % 1024
    ['\\', 'u', hexChar (hi / 4096 % 16), hexChar (hi / 256 % 16),
     hexChar (hi / 16 % 16), hexChar (hi % 16)] ++
    ['\\', 'u', hexChar (lo / 4096 % 16), hexChar (lo / 256 % 16),
     hexChar (lo / 16 % 16), hexChar (lo % 16)]

/-- A JSON string literal (quotes plus escaped body) as `json.dumps`
emits it. -/
def jstrQuote (s : String) : List Char :=
  '"' :: s.data.flatMap escChar ++ ['"']

mutual

/-- `json.dumps` with its default separators (`", "` between items,
`": "` after keys), as a character list. -/
def jdumpChars : JValue → List Char
  | .null => "null".data
  | .bool true => "true".data
  | .bool false => "false".data
  | .num n => (toString n).data
  | .str s => jstrQuote s
  | .arr xs => '[' :: jdumpArr xs ++ [']']
  | .obj fs => obraceChar :: jdumpObj fs ++ [cbraceChar]

/-- Array items serialized and joined by `", "`. -/
def jdumpArr : List JValue → List Char
  | [] => []
  | [x] => jdumpChars x
  | x :: y :: xs => jdumpChars x ++ ',' :: ' ' :: jdumpArr (y :: xs)

/-- Object entries serialized as `"key": value` joined by `", "`. -/
def jdumpObj : List (String × JValue) → List Char
  | [] => []
  | [(k, v)] => jstrQuote k ++ ':' :: ' ' :: jdumpChars v
  | (k, v) :: e :: fs =>
      jstrQuote k ++ ':' :: ' ' :: jdumpChars v ++ ',' :: ' ' :: jdumpObj (e :: fs)

end

/-- `json.dumps(v)` as a `String`. -/
def jdump (v : JValue) : String := String.mk (jdumpChars v)

/-! ### SHA-256 (`hashlib.sha256`), executable over byte lists -/

/-- `2 ^ 32`, the word modulus of SHA-256. -/
def w32 : Nat := 4294967296

/-- Right rotation of a 32-bit word. -/
def rotr32 (n x : Nat) : Nat := ((x >>> n) ||| (x <<< (32 - n))) % w32

/-- SHA-256 small sigma 0. -/
def ssig0 (x : Nat) : Nat := rotr32 7 x ^^^ rotr32 18 x ^^^ (x >>> 3)

/-- SHA-256 small sigma 1. -/
def ssig1 (x : Nat) : Nat := rotr32 17 x ^^^ rotr32 19 x ^^^ (x >>> 10)

/-- SHA-256 big sigma 0. -/
def bsig0 (x : Nat) : Nat := rotr32 2 x ^^^ rotr32 13 x ^^^ rotr32 22 x

/-- SHA-256 big sigma 1. -/
def bsig1 (x : Nat) : Nat := rotr32 6 x ^^^ rotr32 11 x ^^^ rotr32 25 x

/-- SHA-256 choice function. -/
def chFn (e f g : Nat) : Nat := (e &&& f) ^^^ ((e ^^^ 4294967295) &&& g)

/-- SHA-256 majority function. -/
def majFn (a b c : Nat) : Nat := (a &&& b) ^^^ (a &&& c) ^^^ (b &&& c)

/-- The 64 SHA-256 round constants. -/
def sha256K : List Nat :=
  [1116352408, 1899447441, 3049323471, 3921009573,
   961987163, 1508970993, 2453635748, 2870763221,
   3624381080, 310598401, 607225278, 1426881987,
   1925078388, 2162078206, 2614888103, 3248222580,
   3835390401, 4022224774, 264347078, 604807628,
   770255983, 1249150122, 1555081692, 1996064986,
   2554220882, 2821834349, 2952996808, 3210313671,
   3336571891, 3584528711, 113926993, 338241895,
   666307205, 773529912, 1294757372, 1396182291,
   1695183700, 1986661051, 2177026350, 2456956037,
   2730485921, 2820302411, 3259730800, 3345764771,
   3516065817, 3600352804, 4094571909, 275423344,
   430227734, 506948616, 659060556, 883997877,
   958139571, 1322822218, 1537002063, 1747873779,
   1955562222, 2024104815, 2227730452, 2361852424,
   2428436474, 2756734187, 3204031479, 3329325298]

/-- The eight 32-bit working variables of the SHA-256 compression loop. -/
structure SHA256State where
  h0 : Nat
  h1 : Nat
  h2 : Nat
  h3 : Nat
  h4 : Nat
  h5 : Nat
  h6 : Nat
  h7 : Nat

/-- SHA-256 initial hash value. -/
def sha256Init : SHA256State :=
  ⟨1779033703, 3144134277, 1013904242, 2773480762,
   1359893119, 2600822924, 528734635, 1541459225⟩

/-- Big-endian byte serialization of `x` on `n` bytes. -/
def toBytesBE (n x : Nat) : List Nat :=
  (List.range n).map (fun i => (x >>> (8 * (n - 1 - i))) % 256)

/-- Big-endian word from a byte list. -/
def bytesToWordBE (bs : List Nat) : Nat := bs.foldl (fun a b => a * 256 + b) 0

/-- SHA-256 padding: append `0x80`, zeros to 56 mod 64, then the 64-bit
big-endian bit length. -/
def sha256pad (msg : List Nat) : List Nat :=
  let L := msg.length
  let zeros := (64 + 56 - (L + 1) % 64) % 64
  msg ++ [128] ++ List.replicate zeros 0 ++ toBytesBE 8 (8 * L)

/-- The 64-entry message schedule of one 64-byte block. -/
def msgSchedule (block : List Nat) : List Nat :=
  let w16 := (List.range 16).map (fun i => bytesToWordBE ((block.drop (4 * i)).take 4))
  (List.range 48).foldl
    (fun w _ =>
      let i := w.length
      w ++ [(ssig1 (w.getD (i - 2) 0) + w.getD (i - 7) 0 +
             ssig0 (w.getD (i - 15) 0) + w.getD (i - 16) 0) % w32])
    w16

/-- One SHA-256 round. -/
def sha256Round (s : SHA256State) (k w : Nat) : SHA256State :=
  let t1 := (s.h7 + bsig1 s.h4 + chFn s.h4 s.h5 s.h6 + k + w) % w32
  let t2 := (bsig0 s.h0 + majFn s.h0 s.h1 s.h2) % w32
  ⟨(t1 + t2) % w32, s.h0, s.h1, s.h2, (s.h3 + t1) % w32, s.h4, s.h5, s.h6⟩

/-- Compress one 64-byte block into the running state. -/
def compressBlock (s : SHA256State) (block : List Nat) : SHA256State :=
  let w := msgSchedule block
  let t := (sha256K.zip w).foldl (fun st kw => sha256Round st kw.1 kw.2) s
  ⟨(s.h0 + t.h0) % w32, (s.h1 + t.h1) % w32, (s.h2 + t.h2) % w32,
   (s.h3 + t.h3) % w32, (s.h4 + t.h4) % w32, (s.h5 + t.h5) % w32,
   (s.h6 + t.h6) % w32, (s.h7 + t.h7) % w32⟩

/-- SHA-256 over a byte list, as the final eight-word state. -/
def sha256Words (msg : List Nat) : SHA256State :=
  let padded := sha256pad msg
  (List.range (padded.length / 64)).foldl
    (fun st i => compressBlock st ((padded.drop (64 * i)).take 64)) sha256Init

/-- UTF-8 encoding of one code point (`str.encode()` in Python). -/
def utf8EncodeChar (c : Nat) : List Nat :=
  if c < 128 then [c]
  else if c < 2048 then [192 ||| (c >>> 6), 128 ||| (c &&& 63)]
  else if c < 65536 then
    [224 ||| (c >>> 12), 128 ||| ((c >>> 6) &&& 63), 128 ||| (c &&& 63)]
  else
    [240 ||| (c >>> 18), 128 ||| ((c >>> 12) &&& 63),
     128 ||| ((c >>> 6) &&& 63), 128 ||| (c &&& 63)]

/-- `api_key.encode()`: the UTF-8 bytes of a string. -/
def strToBytes (s : String) : List Nat := s.data.flatMap (fun c => utf8EncodeChar c.toNat)

/-- The serialized 32-byte digest. -/
def sha256Bytes (s : String) : List Nat :=
  let st := sha256Words (strToBytes s)
  [st.h0, st.h1, st.h2, st.h3, st.h4, st.h5, st.h6, st.h7].flatMap (toBytesBE 4)

/-- Two lower-case hex digits of one byte. -/
def byteToHex (b : Nat) : List Char := [hexChar (b / 16), hexChar (b % 16)]

/-- `hashlib.sha256(key.encode()).hexdigest()` as a character list
(64 lower-case hex digits). -/
def sha256HexChars (s : String) : List Char := (sha256Bytes s).flatMap byteToHex

/-- `hash_api_key` (app.py lines 117-119):
`hashlib.sha256(api_key.encode()).hexdigest()[:16]`. -/
def hash_api_key (api_key : String) : String :=
  String.mk ((sha256HexChars api_key).take 16)

/-! ### Credential extraction (app.py lines 117-130) -/

/-- `str.startswith` over the character sequences of the two strings. -/
def strStartsWith (s p : String) : Bool := p.data.isPrefixOf s.data

/-- `extract_api_key` (app.py lines 122-130). `none` models a missing
`Authorization` header; Python's `if not authorization` also catches the
empty string. A failure is the `(status_code, detail)` of the raised
`HTTPException`; success strips the 7-character `"Bearer "` marker. -/
def extract_api_key : Option String → Except (Nat × String) String
  | none => .error (401, "Missing Authorization header")
  | some a =>
    if a = "" then .error (401, "Missing Authorization header")
    else if strStartsWith a "Bearer " then .ok (a.drop 7)
    else .error (401, "Invalid Authorization header format")

/-! ### Response reconstruction (app.py lines 47-99) -/

/-- `extract_assistant_message` (app.py lines 47-78). All paths on which
the Python body would raise (non-dict payload reached by subscripting,
non-dict first choice, non-dict truthy `message`) are caught by its
`except Exception` handler and produce `None`; they are the `none` arms
here, so the embedding is total exactly because the source never lets an
exception escape. -/
def extract_assistant_message (response_data : JValue) : Option JValue :=
  -- if not response_data or "choices" not in response_data: return None
  if response_data.truthy = false then none
  else
    match response_data with
    | .obj fs =>
      match fs.lookup "choices" with
      | none => none
      | some choices =>
        -- choices = response_data.get("choices", []); if not choices: return None
        if choices.truthy = false then none
        else
          match choices with
          | .arr (first :: _) =>
            match first with
            | .obj cfs =>
              -- message = choices[0].get("message"); if not message: return None
              match cfs.lookup "message" with
              | none => none
              | some message =>
                if message.truthy = false then none
                else
                  match message with
                  | .obj mfs =>
                    -- assistant_msg = dict with role "assistant" and
                    -- content = message.get("content", "")
                    let content := (mfs.lookup "content").getD (.str "")
                    let base := [("role", JValue.str "assistant"), ("content", content)]
                    -- if "tool_calls" in message and message["tool_calls"]:
                    match mfs.lookup "tool_calls" with
                    | some tc =>
                      if tc.truthy then some (.obj (base ++ [("tool_calls", tc)]))
                      else some (.obj base)
                    | none => some (.obj base)
                  | _ => none -- message.get on a non-dict raises; caught, None
            | _ => none -- choices[0].get on a non-dict raises; caught, None
          | _ => none -- subscripting a truthy non-list raises; caught, None
    | _ => none -- membership test or .get on a non-dict raises; caught, None

/-- `extract_tool_calls` (app.py lines 81-99): the first choice's
`message.get("tool_calls")` serialized with `json.dumps` when truthy. -/
def extract_tool_calls (response_data : JValue) : Option String :=
  if response_data.truthy = false then none
  else
    match response_data with
    | .obj fs =>
      match fs.lookup "choices" with
      | none => none
      | some choices =>
        if choices.truthy = false then none
        else
          match choices with
          | .arr (first :: _) =>
            match first with
            | .obj cfs =>
              -- message = choices[0].get("message", {})
              match (cfs.lookup "message").getD (.obj []) with
              | .obj mfs =>
                match mfs.lookup "tool_calls" with
                | some tc => if tc.truthy then some (jdump tc) else none
                | none => none
              | _ => none -- .get on a non-dict message raises; caught, None
            | _ => none
          | _ => none
    | _ => none

/-! ### Upstream forwarder (proxy.py lines 16-56) -/

/-- The behaviour of the upstream endpoint for one unary call:
either a transport failure (DNS, TLS, reset, timeout — the message of the
exception `httpx` raises) or an HTTP reply with a status code, a parsed
JSON body and the raw body text. `elapsedMs` is the measured wall-clock
duration, an input of the model. -/
structure UnaryUpstream where
  outcome : Except String (Nat × JValue × String)
  elapsedMs : Nat

/-- `OpenAIProxy.forward_request` with `stream=False` (proxy.py lines
16-56): `(response_data, response_time_ms, error)`. Status 200 returns
the parsed body and no error; any other status returns no payload and
`"HTTP <status>: <body>"`; a transport exception returns no payload and
its message. Elapsed time is reported in every case. -/
def forward_request (u : UnaryUpstream) : Option JValue × Nat × Option String :=
  match u.outcome with
  | .error e => (none, u.elapsedMs, some e)
  | .ok (status, body, text) =>
    if status = 200 then (some body, u.elapsedMs, none)
    else (none, u.elapsedMs, some ("HTTP " ++ toString status ++ ": " ++ text))

/-! ### Streaming tee (app.py lines 289-312) -/

/-- The synthetic terminal SSE chunk injected on a mid-stream error
(app.py line 306): `f"data: \x7b\x7b\"error\": \"\x7bstr(e)\x7d\"\x7d\x7d\n\n"`. -/
def error_chunk (e : String) : String :=
  "data: \x7b\"error\": \"" ++ e ++ "\"\x7d\n\n"

/-- One observable side effect of `event_generator`: a chunk appended to
`collected_chunks` (the accumulation buffer) or a chunk yielded to the
client sink. -/
inductive SinkEvent where
  | appended (chunk : String) : SinkEvent
  | yielded (chunk : String) : SinkEvent

/-- The ordered effect trace of `event_generator` (app.py lines 294-308)
when `proxy.forward_stream` produces `chunks` and then either ends
normally (`err = none`) or raises a transport error with message `e`
(`err = some e`). Per chunk the code appends to `collected_chunks` and
then yields; on an error it appends the synthetic `error_chunk` and
yields that same chunk. -/
def event_generator_trace (chunks : List String) (err : Option String) : List SinkEvent :=
  chunks.flatMap (fun c => [.appended c, .yielded c]) ++
    match err with
    | none => []
    | some e => [.appended (error_chunk e), .yielded (error_chunk e)]

/-- The chunks the client sink receives, in order, from an effect trace. -/
def clientChunksOf : List SinkEvent → List String
  | [] => []
  | .yielded c :: t => c :: clientChunksOf t
  | .appended _ :: t => clientChunksOf t

/-- The chunks appended to `collected_chunks`, in order, from an effect
trace. -/
def bufferChunksOf : List SinkEvent → List String
  | [] => []
  | .appended c :: t => c :: bufferChunksOf t
  | .yielded _ :: t => bufferChunksOf t

/-! ### Persisted record (models.py) and handler outcomes -/

/-- `LLMRequest` (models.py lines 8-39), the persisted row. `id` (assigned
by the database) is omitted; `timestamp` is an abstract clock value; the
optional sampling parameters hold the JSON values passed through
untouched. `messages` is the stored JSON string, exactly as
`json.dumps` produces it. -/
structure LLMRequest where
  timestamp : Nat
  model : JValue
  messages : String
  temperature : Option JValue
  max_tokens : Option JValue
  top_p : Option JValue
  frequency_penalty : Option JValue
  presence_penalty : Option JValue
  stream : Bool
  functions : Option String
  function_call : Option String
  tools : Option String
  tool_choice : Option String
  response : Option String
  response_time_ms : Option Nat
  tool_calls : Option String
  api_key_hash : Option String
  status : String
  status_code : Nat
  error : Option String

/-- The client-visible outcome of one call to the endpoint. -/
inductive HandlerResult where
  /-- A raised `HTTPException` with its status code and detail. -/
  | httpError (status_code : Nat) (detail : String) : HandlerResult
  /-- An exception escaped the handler; FastAPI turns it into a bare
  500 Internal Server Error. -/
  | uncaught : HandlerResult
  /-- `JSONResponse(content=...)`. -/
  | jsonResponse (content : JValue) : HandlerResult
  /-- `EventSourceResponse`, with the chunk sequence the client reads. -/
  | eventStream (events : List String) : HandlerResult

/-- Everything observable about one exchange: the client-visible result,
the records committed to the database, and whether any outbound call to
the upstream was made. -/
structure ExchangeOutcome where
  result : HandlerResult
  persisted : List LLMRequest
  upstreamCalled : Bool

/-- `json.dumps(x) if x else None`, the idiom used for the optional
JSON-string columns (app.py lines 243-247 and 327-330). -/
def dumpIfTruthy (x : Option JValue) : Option String :=
  match x with
  | some v => if v.truthy then some (jdump v) else none
  | none => none

/-! ### Streaming handler (app.py lines 265-346) -/

/-- `handle_streaming_request` (app.py lines 265-346). The
`EventSourceResponse` is built from `event_generator()` but the generator
only runs after the handler returns, so when the record is built at lines
317-338 `error_occurred` is still `None` and `collected_chunks` is still
empty: the record stores the inbound messages only, `response`,
`response_time_ms` and `tool_calls` as `None`, status `"ok"`,
status code 200 and no error, whatever the stream later does. The
`db.add`/`db.commit` sits in a `try`/`except` that logs and swallows a
failure (`dbOk = false` persists nothing but changes nothing else). -/
def handle_streaming_request (now : Nat) (api_key_hash : String) (model : JValue)
    (messages : List JValue)
    (temperature max_tokens top_p frequency_penalty presence_penalty : Option JValue)
    (functions function_call tools tool_choice : Option JValue)
    (streamChunks : List String) (streamErr : Option String) (dbOk : Bool) :
    ExchangeOutcome :=
  -- error_occurred at record-construction time: the generator has not
  -- been consumed yet (EventSourceResponse is lazy)
  let error_occurred : Option String := none
  let record : LLMRequest :=
    { timestamp := now
      model := model
      messages := jdump (.arr messages)
      temperature := temperature
      max_tokens := max_tokens
      top_p := top_p
      frequency_penalty := frequency_penalty
      presence_penalty := presence_penalty
      stream := true
      functions := dumpIfTruthy functions
      function_call := dumpIfTruthy function_call
      tools := dumpIfTruthy tools
      tool_choice := dumpIfTruthy tool_choice
      response := none          -- "Will be populated during/after streaming"
      response_time_ms := none  -- "Not available yet for streaming"
      tool_calls := none        -- "Not extracted for streaming responses"
      api_key_hash := some api_key_hash
      status := match error_occurred with | none => "ok" | some _ => "error"
      status_code := 200
      error := error_occurred }
  { result := .eventStream (clientChunksOf (event_generator_trace streamChunks streamErr))
    persisted := if dbOk then [record] else []
    upstreamCalled := true }

/-! ### Endpoint orchestrator (app.py lines 139-262) -/

/-- `chat_completions` (app.py lines 139-262). Inputs model the
environment of one call: `authorization` is the raw header,
`body` the parsed JSON body (`none` when `request.json()` fails),
`upstream` the unary upstream behaviour, `streamChunks`/`streamErr` the
streaming upstream behaviour, `dbOk` whether `db.add`/`db.commit`
succeeds, and `now` the clock. Non-object bodies and non-array
`messages` values are modelled as the uncaught `TypeError`/
`AttributeError` the Python code runs into on such input (outside every
claim's path; for non-array `messages` the Python error site varies with
the path taken). -/
def chat_completions (now : Nat) (authorization : Option String)
    (body : Option JValue) (upstream : UnaryUpstream)
    (streamChunks : List String) (streamErr : Option String) (dbOk : Bool) :
    ExchangeOutcome :=
  -- api_key = extract_api_key(authorization): HTTPException propagates
  match extract_api_key authorization with
  | .error (code, detail) => { result := .httpError code detail, persisted := [], upstreamCalled := false }
  | .ok api_key =>
    let api_key_hash := hash_api_key api_key
    match body with
    -- except json.JSONDecodeError: raise HTTPException(400, ...)
    | none => { result := .httpError 400 "Invalid JSON payload", persisted := [], upstreamCalled := false }
    | some payload =>
      match payload with
      | .obj fields =>
        let model := (fields.lookup "model").getD (.str "unknown")
        let messagesJ := (fields.lookup "messages").getD (.arr [])
        let temperature := fields.lookup "temperature"
        let max_tokens := fields.lookup "max_tokens"
        let top_p := fields.lookup "top_p"
        let frequency_penalty := fields.lookup "frequency_penalty"
        let presence_penalty := fields.lookup "presence_penalty"
        let stream := ((fields.lookup "stream").getD (.bool false)).truthy
        let functions := fields.lookup "functions"
        let function_call := fields.lookup "function_call"
        let tools := fields.lookup "tools"
        let tool_choice := fields.lookup "tool_choice"
        match messagesJ with
        | .arr messages =>
          if stream then
            handle_streaming_request now api_key_hash model messages
              temperature max_tokens top_p frequency_penalty presence_penalty
              functions function_call tools tool_choice
              streamChunks streamErr dbOk
          else
            let (response_data, response_time_ms, error) := forward_request upstream
            -- if error: (Python truthiness of an optional string)
            let errTruthy := match error with | some e => e != "" | none => false
            -- messages_with_response = messages.copy(), then on success
            -- append extract_assistant_message(response_data) if truthy
            let messages_with_response :=
              if errTruthy then messages
              else
                match extract_assistant_message (response_data.getD .null) with
                | some am => messages ++ [am]
                | none => messages
            let status := if errTruthy then "error" else "ok"
            let tool_calls_json :=
              if errTruthy then none
              else extract_tool_calls (response_data.getD .null)
            let record : LLMRequest :=
              { timestamp := now
                model := model
                messages := jdump (.arr messages_with_response)
                temperature := temperature
                max_tokens := max_tokens
                top_p := top_p
                frequency_penalty := frequency_penalty
                presence_penalty := presence_penalty
                stream := false
                functions := dumpIfTruthy functions
                function_call := dumpIfTruthy function_call
                tools := dumpIfTruthy tools
                tool_choice := dumpIfTruthy tool_choice
                -- response = json.dumps(response_data) if response_data else None
                response := dumpIfTruthy response_data
                response_time_ms := some response_time_ms
                tool_calls := tool_calls_json
                api_key_hash := some api_key_hash
                status := status
                -- status_code = 200 if response_data else 500 (truthiness)
                status_code :=
                  match response_data with
                  | some rd => if rd.truthy then 200 else 500
                  | none => 500
                error := error }
            -- db.add / db.commit are NOT wrapped in try/except here
            -- (app.py lines 255-256): a persistence failure escapes
            if dbOk = false then
              { result := .uncaught, persisted := [], upstreamCalled := true }
            else
              { result :=
                  if errTruthy then
                    -- raise HTTPException(status_code=500, detail=error)
                    .httpError 500 (error.getD "")
                  else .jsonResponse (response_data.getD .null)
                persisted := [record]
                upstreamCalled := true }
        | _ => { result := .uncaught, persisted := [], upstreamCalled := false }
      | _ => { result := .uncaught, persisted := [], upstreamCalled := false }

/-! ### Helper lemmas -/

theorem clientChunksOf_append (xs ys : List SinkEvent) :
    clientChunksOf (xs ++ ys) = clientChunksOf xs ++ clientChunksOf ys := by
  induction xs with
  | nil => rfl
  | cons x t ih => cases x <;> simp [clientChunksOf, ih]

theorem bufferChunksOf_append (xs ys : List SinkEvent) :
    bufferChunksOf (xs ++ ys) = bufferChunksOf xs ++ bufferChunksOf ys := by
  induction xs with
  | nil => rfl
  | cons x t ih => cases x <;> simp [bufferChunksOf, ih]

theorem clientChunksOf_pair_trace (chunks : List String) :
    clientChunksOf (chunks.flatMap fun c => [.appended c, .yielded c]) = chunks := by
  induction chunks with
  | nil => rfl
  | cons c t ih => simpa [clientChunksOf] using ih

theorem bufferChunksOf_pair_trace (chunks : List String) :
    bufferChunksOf (chunks.flatMap fun c => [.appended c, .yielded c]) = chunks := by
  induction chunks with
  | nil => rfl
  | cons c t ih => simpa [bufferChunksOf] using ih

/-- Claim C1: for every streaming exchange — every chunk sequence,
including the empty one and one terminated by a mid-stream error marker —
the ordered chunk sequence yielded to the client by `event_generator`
equals the ordered chunk sequence appended to `collected_chunks`, so no
chunk is dropped, duplicated or reordered between the two sinks, and the
ordered concatenations of the two sides coincide. -/
theorem tee_client_equals_buffer (chunks : List String) (err : Option String) :
    clientChunksOf (event_generator_trace chunks err)
      = bufferChunksOf (event_generator_trace chunks err) ∧
    String.join (clientChunksOf (event_generator_trace chunks err))
      = String.join (bufferChunksOf (event_generator_trace chunks err)) := by
  have h : clientChunksOf (event_generator_trace chunks err)
      = bufferChunksOf (event_generator_trace chunks err) := by
    cases err with
    | none =>
      simp [event_generator_trace, clientChunksOf_append, bufferChunksOf_append,
        clientChunksOf_pair_trace, bufferChunksOf_pair_trace]
    | some e =>
      simp [event_generator_trace, clientChunksOf_append, bufferChunksOf_append,
        clientChunksOf_pair_trace, bufferChunksOf_pair_trace,
        clientChunksOf, bufferChunksOf]
  exact ⟨h, by rw [h]⟩

/-- Claim C7: `extract_assistant_message` yields no assistant turn on a
payload that is absent (`null`), lacks a `choices` field, has an empty
`choices` list, or whose first choice has no `message`; it never raises —
in the source every exception is caught by the surrounding
`except Exception` handler and turned into `None`, which is why this
embedding is a total function into `Option`. -/
theorem extract_assistant_message_malformed_none
    (fs cfs : List (String × JValue)) (rest : List JValue) :
    extract_assistant_message .null = none ∧
    (fs.lookup "choices" = none → extract_assistant_message (.obj fs) = none) ∧
    (fs.lookup "choices" = some (.arr []) → extract_assistant_message (.obj fs) = none) ∧
    (fs.lookup "choices" = some (.arr (.obj cfs :: rest)) →
      cfs.lookup "message" = none → extract_assistant_message (.obj fs) = none) := by
  refine ⟨rfl, ?_, ?_, ?_⟩
  · intro h
    by_cases hf : (JValue.obj fs).truthy = false <;>
      simp [extract_assistant_message, hf, h]
  · intro h
    by_cases hf : (JValue.obj fs).truthy = false <;>
      simp [extract_assistant_message, hf, h, JValue.truthy]
  · intro h hm
    by_cases hf : (JValue.obj fs).truthy = false <;>
      simp [extract_assistant_message, hf, h, hm, JValue.truthy]

/-- Witness for C7: concrete malformed payloads (a choices list whose
first choice has no message; a payload without a choices field) yield no
assistant turn. -/
theorem extract_assistant_message_malformed_none_witness :
    extract_assistant_message (.obj [("choices", JValue.arr [.obj [("index", .num 0)]])]) = none ∧
    extract_assistant_message (.obj [("object", JValue.str "chat.completion")]) = none ∧
    extract_assistant_message (.obj [("choices", JValue.arr [])]) = none := by
  refine ⟨?_, ?_, ?_⟩
  · exact (extract_assistant_message_malformed_none
      [("choices", JValue.arr [.obj [("index", .num 0)]])] [("index", .num 0)] []).2.2.2 rfl rfl
  · exact (extract_assistant_message_malformed_none
      [("object", JValue.str "chat.completion")] [] []).2.1 rfl
  · exact (extract_assistant_message_malformed_none
      [("choices", JValue.arr [])] [] []).2.2.1 rfl

/-! ### Fingerprint properties (C8) -/

/-- The sixteen lower-case hexadecimal digits. -/
def hexDigitChars : List Char := "0123456789abcdef".data

theorem hexChar_mem_hexDigitChars {n : Nat} (h : n < 16) :
    hexChar n ∈ hexDigitChars := by
  interval_cases n <;> decide

theorem length_toBytesBE (n x : Nat) : (toBytesBE n x).length = n := by
  simp [toBytesBE]

theorem mem_toBytesBE_lt {n x b : Nat} (h : b ∈ toBytesBE n x) : b < 256 := by
  simp only [toBytesBE, List.mem_map] at h
  obtain ⟨i, -, rfl⟩ := h
  exact Nat.mod_lt _ (by norm_num)

theorem length_flatMap_byteToHex (l : List Nat) :
    (l.flatMap byteToHex).length = 2 * l.length := by
  induction l with
  | nil => rfl
  | cons b t ih => simp [byteToHex, ih]; ring

theorem length_sha256Bytes (s : String) : (sha256Bytes s).length = 32 := by
  simp [sha256Bytes, length_toBytesBE]

theorem length_sha256HexChars (s : String) : (sha256HexChars s).length = 64 := by
  rw [sha256HexChars, length_flatMap_byteToHex, length_sha256Bytes]

theorem mem_sha256HexChars_hex {s : String} {c : Char}
    (h : c ∈ sha256HexChars s) : c ∈ hexDigitChars := by
  rw [sha256HexChars, List.mem_flatMap] at h
  obtain ⟨b, hb, hc⟩ := h
  have hb256 : b < 256 := by
    rw [sha256Bytes, List.mem_flatMap] at hb
    obtain ⟨w, -, hbw⟩ := hb
    exact mem_toBytesBE_lt hbw
  simp only [byteToHex, List.mem_cons, List.not_mem_nil, or_false] at hc
  rcases hc with rfl | rfl
  · exact hexChar_mem_hexDigitChars (Nat.div_lt_of_lt_mul (by omega))
  · exact hexChar_mem_hexDigitChars (Nat.mod_lt _ (by norm_num))

/-- Development lemma on `hash_api_key` (this is deliberately not a full
proof of the spec's fingerprint sentence): fingerprinting is a
deterministic pure function of the credential; the fingerprint is a
fixed-length string of exactly 16 lower-case hexadecimal characters; it
is the truncation (first 16 characters) of the full one-way SHA-256 hex
digest; and it differs from the raw credential whenever the credential's
length is not 16, since the fingerprint always has length exactly 16.
Whether the fingerprint can equal a 16-hex-character credential is the
question of a fixed point of the truncated hash, which this development
neither proves nor refutes. -/
theorem hash_api_key_fingerprint (k : String) :
    (∀ k2 : String, k2 = k → hash_api_key k2 = hash_api_key k) ∧
    (hash_api_key k).length = 16 ∧
    (∀ c ∈ (hash_api_key k).data, c ∈ hexDigitChars) ∧
    hash_api_key k = String.mk ((sha256HexChars k).take 16) ∧
    (k.length ≠ 16 → hash_api_key k ≠ k) := by
  have hlen : (hash_api_key k).length = 16 := by
    simp [hash_api_key, String.length, length_sha256HexChars]
  refine ⟨fun k2 h => by rw [h], hlen, ?_, rfl, ?_⟩
  · intro c hc
    have : c ∈ sha256HexChars k := List.take_subset 16 _ (by simpa [hash_api_key] using hc)
    exact mem_sha256HexChars_hex this
  · intro hne heq
    exact hne (by rw [← heq, hlen])

/-- Concrete evaluation of `hash_api_key_fingerprint` at the credential
`"sk-test"`: the fingerprint is the first 16 hex digits of the real
SHA-256 digest of the credential (cross-checked against `hashlib`), has
length 16, and differs from the credential. -/
theorem hash_api_key_fingerprint_witness :
    hash_api_key "sk-test" = "f3abf2a6cc4f0098" ∧
    (hash_api_key "sk-test").length = 16 ∧
    hash_api_key "sk-test" ≠ "sk-test" :=
  ⟨by decide, (hash_api_key_fingerprint "sk-test").2.1,
   (hash_api_key_fingerprint "sk-test").2.2.2.2 (by decide)⟩

/-! ### Concrete values used by the per-claim theorems -/

/-- The inbound message `{"role": "user", "content": "hi"}`. -/
def msgUserHi : JValue := .obj [("role", .str "user"), ("content", .str "hi")]

/-- The scenario-1 upstream payload
`{"choices": [{"message": {"content": "hello"}}]}`. -/
def scenario1Response : JValue :=
  .obj [("choices", .arr [.obj [("message", .obj [("content", .str "hello")])]])]

/-- A well-formed 200 payload that carries no `choices` field, so no
assistant turn can be reconstructed from it. -/
def noChoicesPayload : JValue := .obj [("object", .str "chat.completion")]

/-- A unary upstream answering 200 with `noChoicesPayload`. -/
def c2Upstream : UnaryUpstream := ⟨.ok (200, noChoicesPayload, "(raw body)"), 5⟩

/-- Request fields `model="m"`, `messages=[msgUserHi]` (no `stream`). -/
def c2Fields : List (String × JValue) :=
  [("model", .str "m"), ("messages", .arr [msgUserHi])]

/-- The C2 counterexample run: valid credential, parsable body, upstream
returns a payload, persistence succeeds. -/
def c2Run : ExchangeOutcome :=
  chat_completions 0 (some "Bearer sk-1") (some (.obj c2Fields)) c2Upstream [] none true

/-- Counterexample to claim C2 as stated: a unary exchange in which the
Forwarder returns a payload (no error) yet the persisted record's
messages are exactly the original inbound messages — no assistant turn
is appended, because no turn is reconstructible from the payload
(`extract_assistant_message` yields `none` on a 200 body without
`choices`), while the client still receives the payload with status ok. -/
theorem unary_payload_without_turn_persists_original :
    (forward_request c2Upstream).2.2 = none ∧
    extract_assistant_message noChoicesPayload = none ∧
    c2Run.persisted.map (fun r => r.messages) = [jdump (.arr [msgUserHi])] ∧
    c2Run.persisted.map (fun r => r.status) = ["ok"] ∧
    c2Run.result = .jsonResponse noChoicesPayload :=
  ⟨rfl, rfl, rfl, rfl, rfl⟩

/-- Claim C2 as amended: for every unary exchange in which the Forwarder
returns a payload, the persisted record's messages equal the original
inbound messages plus the assistant turn reconstructed from that payload
whenever reconstruction yields one (`Option.toList` is empty exactly
when `extract_assistant_message` yields no turn, in which case the
original messages are persisted unchanged); the record has status ok and
the client receives the payload. -/
theorem unary_success_appends_reconstructed_turn (now : Nat) (auth : Option String)
    (key : String) (fields : List (String × JValue)) (ms : List JValue)
    (upstream : UnaryUpstream) (rd : JValue) (txt : String)
    (chunks : List String) (serr : Option String)
    (hauth : extract_api_key auth = .ok key)
    (hmsgs : (fields.lookup "messages").getD (.arr []) = .arr ms)
    (hstream : ((fields.lookup "stream").getD (.bool false)).truthy = false)
    (hup : upstream.outcome = .ok (200, rd, txt)) :
    (chat_completions now auth (some (.obj fields)) upstream chunks serr true).persisted.map
        (fun r => r.messages)
      = [jdump (.arr (ms ++ (extract_assistant_message rd).toList))] ∧
    (chat_completions now auth (some (.obj fields)) upstream chunks serr true).persisted.map
        (fun r => r.status) = ["ok"] ∧
    (chat_completions now auth (some (.obj fields)) upstream chunks serr true).result
      = .jsonResponse rd := by
  cases h : extract_assistant_message rd <;>
    simp [chat_completions, hauth, hmsgs, hstream, forward_request, hup, h]

/-- Witness for the amended C2, instantiating spec example scenario 1:
inbound messages `[{"role": "user", "content": "hi"}]`, upstream payload
`{"choices": [{"message": {"content": "hello"}}]}`; the persisted
messages are the originals plus the reconstructed assistant turn
`{"role": "assistant", "content": "hello"}`, status ok. -/
theorem unary_success_appends_reconstructed_turn_witness :
    (chat_completions 0 (some "Bearer sk-1")
        (some (.obj [("model", .str "gpt"), ("messages", .arr [msgUserHi])]))
        ⟨.ok (200, scenario1Response, "(raw)"), 42⟩ [] none true).persisted.map
        (fun r => r.messages)
      = [jdump (.arr [msgUserHi,
          .obj [("role", .str "assistant"), ("content", .str "hello")]])] ∧
    (chat_completions 0 (some "Bearer sk-1")
        (some (.obj [("model", .str "gpt"), ("messages", .arr [msgUserHi])]))
        ⟨.ok (200, scenario1Response, "(raw)"), 42⟩ [] none true).persisted.map
        (fun r => r.status) = ["ok"] := by
  have h := unary_success_appends_reconstructed_turn 0 (some "Bearer sk-1") "sk-1"
    [("model", .str "gpt"), ("messages", .arr [msgUserHi])] [msgUserHi]
    ⟨.ok (200, scenario1Response, "(raw)"), 42⟩ scenario1Response "(raw)" [] none
    rfl rfl rfl rfl
  exact ⟨h.1.trans (by rfl), h.2.1⟩

/-- A successful unary upstream for the C3 counterexample. -/
def c3Upstream : UnaryUpstream := ⟨.ok (200, scenario1Response, "(raw)"), 42⟩

/-- The C3 counterexample run: successful upstream call, but
`db.add`/`db.commit` raises. -/
def c3Run : ExchangeOutcome :=
  chat_completions 0 (some "Bearer sk-1") (some (.obj c2Fields)) c3Upstream [] none false

/-- The same exchange as `c3Run` with working persistence. -/
def c3RunDbOk : ExchangeOutcome :=
  chat_completions 0 (some "Bearer sk-1") (some (.obj c2Fields)) c3Upstream [] none true

/-- Counterexample to claim C3 as stated: on the unary path the
`db.add`/`db.commit` at app.py lines 255-256 is not inside any
`try`/`except`, so with a successful upstream call (`error = None`) a
persistence failure escapes the handler — the client gets FastAPI's
generic 500 instead of the successful upstream payload it receives when
persistence works. -/
theorem unary_persistence_failure_changes_outcome :
    (forward_request c3Upstream).2.2 = none ∧
    c3Run.result = .uncaught ∧
    c3Run.persisted = [] ∧
    c3RunDbOk.result = .jsonResponse scenario1Response ∧
    c3Run.result ≠ c3RunDbOk.result :=
  ⟨rfl, rfl, rfl, rfl, fun h => HandlerResult.noConfusion h⟩

/-- Claim C3 as amended: a persistence failure is absorbed only on the
streaming path — there the client-visible result is the same whether or
not `db.add`/`db.commit` raises, because app.py lines 316-344 wrap the
write in `try`/`except`; on the unary path a persistence failure after a
successful upstream call escapes the handler and the client does not
receive the successful response. -/
theorem persistence_failure_streaming_absorbed_unary_not :
    (∀ (now : Nat) (auth : Option String) (key : String)
        (fields : List (String × JValue)) (ms : List JValue)
        (upstream : UnaryUpstream) (chunks : List String) (serr : Option String)
        (dbOk : Bool),
      extract_api_key auth = .ok key →
      (fields.lookup "messages").getD (.arr []) = .arr ms →
      ((fields.lookup "stream").getD (.bool false)).truthy = true →
      (chat_completions now auth (some (.obj fields)) upstream chunks serr dbOk).result
        = (chat_completions now auth (some (.obj fields)) upstream chunks serr true).result) ∧
    (∀ (now : Nat) (auth : Option String) (key : String)
        (fields : List (String × JValue)) (ms : List JValue)
        (upstream : UnaryUpstream) (rd : JValue) (txt : String)
        (chunks : List String) (serr : Option String),
      extract_api_key auth = .ok key →
      (fields.lookup "messages").getD (.arr []) = .arr ms →
      ((fields.lookup "stream").getD (.bool false)).truthy = false →
      upstream.outcome = .ok (200, rd, txt) →
      (chat_completions now auth (some (.obj fields)) upstream chunks serr false).result
        = .uncaught) := by
  constructor
  · intro now auth key fields ms upstream chunks serr dbOk hauth hmsgs hstream
    simp [chat_completions, hauth, hmsgs, hstream, handle_streaming_request]
  · intro now auth key fields ms upstream rd txt chunks serr hauth hmsgs hstream hup
    simp [chat_completions, hauth, hmsgs, hstream, forward_request, hup]

/-- Witness for the amended C3: a concrete streaming exchange whose
client result is unchanged by a failing database commit, and the
concrete unary exchange of `c3Run` whose result is the uncaught failure. -/
theorem persistence_failure_streaming_absorbed_unary_not_witness :
    (chat_completions 0 (some "Bearer sk-1")
        (some (.obj [("messages", .arr [msgUserHi]), ("stream", .bool true)]))
        c3Upstream ["data: x\n\n"] none false).result
      = (chat_completions 0 (some "Bearer sk-1")
        (some (.obj [("messages", .arr [msgUserHi]), ("stream", .bool true)]))
        c3Upstream ["data: x\n\n"] none true).result ∧
    (chat_completions 0 (some "Bearer sk-1") (some (.obj c2Fields)) c3Upstream
        [] none false).result = .uncaught := by
  refine ⟨persistence_failure_streaming_absorbed_unary_not.1 0 (some "Bearer sk-1") "sk-1"
    [("messages", .arr [msgUserHi]), ("stream", .bool true)] [msgUserHi]
    c3Upstream ["data: x\n\n"] none false rfl rfl rfl, ?_⟩
  exact persistence_failure_streaming_absorbed_unary_not.2 0 (some "Bearer sk-1") "sk-1"
    c2Fields [msgUserHi] c3Upstream scenario1Response "(raw)" [] none rfl rfl rfl rfl

/-! ### C4: streaming upstream drop -/

/-- Request fields for a streaming exchange over `[msgUserHi]`. -/
def c4Fields : List (String × JValue) :=
  [("model", .str "gpt"), ("messages", .arr [msgUserHi]), ("stream", .bool true)]

/-- The unary upstream is never contacted on the streaming path. -/
def c4UnusedUpstream : UnaryUpstream := ⟨.error "unused on the streaming path", 0⟩

/-- The C4 run: upstream yields one fragment and then the connection
drops with `"connection reset by peer"`; persistence works. -/
def c4Run : ExchangeOutcome :=
  chat_completions 0 (some "Bearer sk-1") (some (.obj c4Fields)) c4UnusedUpstream
    ["data: x\n\n"] (some "connection reset by peer") true

/-- Behaviour of the code at the C4 failing input (streaming request,
upstream connection drops after one fragment): the client stream does
end with the injected error event, as the claim says, but the persisted
record — written before the stream is consumed and never updated — has
status `"ok"`, no error, no response, and only the inbound messages: it
does not capture the received fragment and does not have status
`"error"`. -/
theorem streaming_drop_record_not_backfilled :
    c4Run.result = .eventStream ["data: x\n\n", error_chunk "connection reset by peer"] ∧
    error_chunk "connection reset by peer"
      = "data: \x7b\"error\": \"connection reset by peer\"\x7d\n\n" ∧
    c4Run.persisted.map (fun r => r.status) = ["ok"] ∧
    c4Run.persisted.map (fun r => r.error) = [none] ∧
    c4Run.persisted.map (fun r => r.response) = [none] ∧
    c4Run.persisted.map (fun r => r.messages) = [jdump (.arr [msgUserHi])] :=
  ⟨rfl, rfl, rfl, rfl, rfl, rfl⟩

/-! ### C5: unary upstream HTTP error -/

theorem http_error_string_ne_empty (s : Nat) (txt : String) :
    ("HTTP " ++ toString s ++ ": " ++ txt) ≠ "" := by
  intro h
  have h2 := congrArg String.length h
  rw [String.length_append, String.length_append, String.length_append] at h2
  have h5 : "HTTP ".length = 5 := rfl
  have h0 : "".length = 0 := rfl
  omega

/-- Claim C5: for every unary exchange whose upstream replies with a
non-success status, the Forwarder returns no payload and the error
string `"HTTP <status>: <body>"`, the client receives a 500 response
carrying that detail, and the persisted record has status `"error"`,
status code 500, the error string, and the original messages with no
assistant turn appended. -/
theorem unary_upstream_http_error_surfaced (now : Nat) (auth : Option String)
    (key : String) (fields : List (String × JValue)) (ms : List JValue)
    (upstream : UnaryUpstream) (status : Nat) (body : JValue) (txt : String)
    (chunks : List String) (serr : Option String)
    (hauth : extract_api_key auth = .ok key)
    (hmsgs : (fields.lookup "messages").getD (.arr []) = .arr ms)
    (hstream : ((fields.lookup "stream").getD (.bool false)).truthy = false)
    (hup : upstream.outcome = .ok (status, body, txt))
    (hs : status ≠ 200) :
    forward_request upstream
      = (none, upstream.elapsedMs, some ("HTTP " ++ toString status ++ ": " ++ txt)) ∧
    (chat_completions now auth (some (.obj fields)) upstream chunks serr true).result
      = .httpError 500 ("HTTP " ++ toString status ++ ": " ++ txt) ∧
    (chat_completions now auth (some (.obj fields)) upstream chunks serr true).persisted.map
        (fun r => r.status) = ["error"] ∧
    (chat_completions now auth (some (.obj fields)) upstream chunks serr true).persisted.map
        (fun r => r.status_code) = [500] ∧
    (chat_completions now auth (some (.obj fields)) upstream chunks serr true).persisted.map
        (fun r => r.error) = [some ("HTTP " ++ toString status ++ ": " ++ txt)] ∧
    (chat_completions now auth (some (.obj fields)) upstream chunks serr true).persisted.map
        (fun r => r.messages) = [jdump (.arr ms)] := by
  have hb : (("HTTP " ++ toString status ++ ": " ++ txt) != "") = true := by
    rw [bne_iff_ne]
    exact http_error_string_ne_empty status txt
  refine ⟨by simp [forward_request, hup, hs], ?_⟩
  simp [chat_completions, hauth, hmsgs, hstream, forward_request, hup, hs, hb]

/-- Witness for C5, instantiating spec example scenario 2: upstream
replies HTTP 429 with body `"rate limited"`; the client gets a 500 whose
detail is `"HTTP 429: rate limited"` and the persisted record has status
`"error"`, status code 500, and the unchanged inbound messages. -/
theorem unary_upstream_http_error_surfaced_witness :
    forward_request ⟨.ok (429, .null, "rate limited"), 7⟩
      = (none, 7, some "HTTP 429: rate limited") ∧
    (chat_completions 0 (some "Bearer sk-1") (some (.obj c2Fields))
        ⟨.ok (429, .null, "rate limited"), 7⟩ [] none true).result
      = .httpError 500 "HTTP 429: rate limited" ∧
    (chat_completions 0 (some "Bearer sk-1") (some (.obj c2Fields))
        ⟨.ok (429, .null, "rate limited"), 7⟩ [] none true).persisted.map
        (fun r => r.status) = ["error"] ∧
    (chat_completions 0 (some "Bearer sk-1") (some (.obj c2Fields))
        ⟨.ok (429, .null, "rate limited"), 7⟩ [] none true).persisted.map
        (fun r => r.status_code) = [500] ∧
    (chat_completions 0 (some "Bearer sk-1") (some (.obj c2Fields))
        ⟨.ok (429, .null, "rate limited"), 7⟩ [] none true).persisted.map
        (fun r => r.messages) = [jdump (.arr [msgUserHi])] := by
  have h := unary_upstream_http_error_surfaced 0 (some "Bearer sk-1") "sk-1"
    c2Fields [msgUserHi] ⟨.ok (429, .null, "rate limited"), 7⟩ 429 .null
    "rate limited" [] none rfl rfl rfl rfl (by decide)
  exact ⟨h.1.trans (by rfl), h.2.1.trans (by rfl), h.2.2.1, h.2.2.2.1, h.2.2.2.2.2⟩

/-! ### C6: credential check happens before any upstream call -/

/-- The HTTP status code of a client-visible result, when the result is
a raised `HTTPException`. -/
def resultStatusCode : HandlerResult → Option Nat
  | .httpError code _ => some code
  | _ => none

/-- Claim C6: for every inbound request whose authorization header is
missing or does not use the `Bearer` scheme, the exchange fails with a
401 client error, nothing is persisted, and no outbound call to the
upstream is attempted (`upstreamCalled = false`: neither
`forward_request` nor `forward_stream` runs), whatever the body, the
upstream behaviour, or the database state. -/
theorem auth_failure_precedes_upstream_call (now : Nat) (auth : Option String)
    (body : Option JValue) (upstream : UnaryUpstream) (chunks : List String)
    (serr : Option String) (dbOk : Bool)
    (hbad : auth = none ∨ ∀ a, auth = some a → strStartsWith a "Bearer " = false) :
    resultStatusCode (chat_completions now auth body upstream chunks serr dbOk).result
      = some 401 ∧
    (chat_completions now auth body upstream chunks serr dbOk).upstreamCalled = false ∧
    (chat_completions now auth body upstream chunks serr dbOk).persisted = [] := by
  rcases hbad with rfl | hball
  · exact ⟨rfl, rfl, rfl⟩
  · cases auth with
    | none => exact ⟨rfl, rfl, rfl⟩
    | some a =>
      have hsw := hball a rfl
      by_cases he : a = "" <;>
        simp [chat_completions, extract_api_key, he, hsw, resultStatusCode]

/-- Witness for C6: the malformed header `"Basic abc"` (wrong scheme)
gives a 401 with no upstream call and nothing persisted, even though the
body and upstream are well-formed. -/
theorem auth_failure_precedes_upstream_call_witness :
    resultStatusCode (chat_completions 0 (some "Basic abc") (some (.obj c2Fields))
        c3Upstream [] none true).result = some 401 ∧
    (chat_completions 0 (some "Basic abc") (some (.obj c2Fields))
        c3Upstream [] none true).upstreamCalled = false ∧
    (chat_completions 0 (some "Basic abc") (some (.obj c2Fields))
        c3Upstream [] none true).persisted = [] :=
  auth_failure_precedes_upstream_call 0 (some "Basic abc") (some (.obj c2Fields))
    c3Upstream [] none true
    (Or.inr (fun a ha => by injection ha with h1; rw [← h1]; rfl))

/-! ### C9: the streaming record is written once, early, and never
back-filled -/

/-- Claim C9: for every streaming exchange (with working persistence),
exactly one record is persisted; its `response`, `response_time_ms` and
`tool_calls` are absent; its messages are exactly the inbound messages
with no assistant turn appended; and the record is independent of the
chunks and of any mid-stream error of the stream — it is created from
the state before the stream is consumed and the code never updates it
afterward (there is no later write), which is the no-back-fill gap. -/
theorem streaming_record_single_early_never_backfilled (now : Nat)
    (auth : Option String) (key : String) (fields : List (String × JValue))
    (ms : List JValue) (upstream : UnaryUpstream)
    (chunks chunks2 : List String) (serr serr2 : Option String)
    (hauth : extract_api_key auth = .ok key)
    (hmsgs : (fields.lookup "messages").getD (.arr []) = .arr ms)
    (hstream : ((fields.lookup "stream").getD (.bool false)).truthy = true) :
    (chat_completions now auth (some (.obj fields)) upstream chunks serr true).persisted.length
      = 1 ∧
    (chat_completions now auth (some (.obj fields)) upstream chunks serr true).persisted.map
        (fun r => r.response) = [none] ∧
    (chat_completions now auth (some (.obj fields)) upstream chunks serr true).persisted.map
        (fun r => r.response_time_ms) = [none] ∧
    (chat_completions now auth (some (.obj fields)) upstream chunks serr true).persisted.map
        (fun r => r.tool_calls) = [none] ∧
    (chat_completions now auth (some (.obj fields)) upstream chunks serr true).persisted.map
        (fun r => r.messages) = [jdump (.arr ms)] ∧
    (chat_completions now auth (some (.obj fields)) upstream chunks serr true).persisted
      = (chat_completions now auth (some (.obj fields)) upstream chunks2 serr2 true).persisted := by
  refine ⟨?_, ?_, ?_, ?_, ?_, ?_⟩ <;>
    simp [chat_completions, hauth, hmsgs, hstream, handle_streaming_request]

/-- Witness for C9: a concrete streaming exchange persists one record
with absent response fields and untouched messages, and that record is
the same whether the stream later completes normally or errors out
mid-way with different chunks. -/
theorem streaming_record_single_early_never_backfilled_witness :
    (chat_completions 0 (some "Bearer sk-1") (some (.obj c4Fields)) c4UnusedUpstream
        ["data: a\n\n"] none true).persisted.length = 1 ∧
    (chat_completions 0 (some "Bearer sk-1") (some (.obj c4Fields)) c4UnusedUpstream
        ["data: a\n\n"] none true).persisted.map (fun r => r.response) = [none] ∧
    (chat_completions 0 (some "Bearer sk-1") (some (.obj c4Fields)) c4UnusedUpstream
        ["data: a\n\n"] none true).persisted
      = (chat_completions 0 (some "Bearer sk-1") (some (.obj c4Fields)) c4UnusedUpstream
        ["data: b\n\n", "data: c\n\n"] (some "boom") true).persisted := by
  have h := streaming_record_single_early_never_backfilled 0 (some "Bearer sk-1")
    "sk-1" c4Fields [msgUserHi] c4UnusedUpstream ["data: a\n\n"]
    ["data: b\n\n", "data: c\n\n"] none (some "boom") rfl rfl rfl
  exact ⟨h.1, h.2.1, h.2.2.2.2.2⟩

/-! ### C10: defaults for missing model and messages fields -/

/-- Claim C10: an inbound body without a `model` field is not rejected —
the exchange proceeds (the upstream is called and its payload returned)
and the persisted record's model is the string `"unknown"`; likewise a
missing `messages` field is treated as the empty list, so the persisted
messages are the serialization of the empty list plus whatever assistant
turn the upstream payload yields. -/
theorem missing_model_and_messages_defaults (now : Nat) (auth : Option String)
    (key : String) (fields : List (String × JValue)) (upstream : UnaryUpstream)
    (rd : JValue) (txt : String) (chunks : List String) (serr : Option String)
    (hauth : extract_api_key auth = .ok key)
    (hmodel : fields.lookup "model" = none)
    (hmsgs : fields.lookup "messages" = none)
    (hstream : fields.lookup "stream" = none)
    (hup : upstream.outcome = .ok (200, rd, txt)) :
    (chat_completions now auth (some (.obj fields)) upstream chunks serr true).upstreamCalled
      = true ∧
    (chat_completions now auth (some (.obj fields)) upstream chunks serr true).result
      = .jsonResponse rd ∧
    (chat_completions now auth (some (.obj fields)) upstream chunks serr true).persisted.map
        (fun r => r.model) = [JValue.str "unknown"] ∧
    (chat_completions now auth (some (.obj fields)) upstream chunks serr true).persisted.map
        (fun r => r.messages)
      = [jdump (.arr (extract_assistant_message rd).toList)] := by
  cases h : extract_assistant_message rd <;>
    simp [chat_completions, hauth, hmodel, hmsgs, hstream, forward_request, hup, h,
      JValue.truthy]

/-- Witness for C10: a body carrying neither `model` nor `messages`
proceeds to the upstream, the record's model is `"unknown"` and its
messages are `"[]"` (the upstream payload has no reconstructible turn). -/
theorem missing_model_and_messages_defaults_witness :
    (chat_completions 0 (some "Bearer sk-1") (some (.obj [("temperature", .num 1)]))
        ⟨.ok (200, noChoicesPayload, "(raw)"), 3⟩ [] none true).upstreamCalled = true ∧
    (chat_completions 0 (some "Bearer sk-1") (some (.obj [("temperature", .num 1)]))
        ⟨.ok (200, noChoicesPayload, "(raw)"), 3⟩ [] none true).result
      = .jsonResponse noChoicesPayload ∧
    (chat_completions 0 (some "Bearer sk-1") (some (.obj [("temperature", .num 1)]))
        ⟨.ok (200, noChoicesPayload, "(raw)"), 3⟩ [] none true).persisted.map
        (fun r => r.model) = [JValue.str "unknown"] ∧
    (chat_completions 0 (some "Bearer sk-1") (some (.obj [("temperature", .num 1)]))
        ⟨.ok (200, noChoicesPayload, "(raw)"), 3⟩ [] none true).persisted.map
        (fun r => r.messages) = [jdump (.arr [])] := by
  have h := missing_model_and_messages_defaults 0 (some "Bearer sk-1") "sk-1"
    [("temperature", .num 1)] ⟨.ok (200, noChoicesPayload, "(raw)"), 3⟩
    noChoicesPayload "(raw)" [] none rfl rfl rfl rfl rfl
  exact ⟨h.1, h.2.1, h.2.2.1, h.2.2.2.trans (by rfl)⟩
